import Mathlib

/-!
Shallow embedding of the ryvencore-qt front-end layer:
`tools.py` (string utilities), `WRAPPERS.py` (signal-emitting wrappers around
core methods), `Session.py` (session facade, registry setup, busy-wait flow
view construction, serialization) and `ryvencore/Base.py` (ID counter).

Python strings are modelled as `List Char`, Python ints as `Int` (budgets and
indices stay far below float-precision limits, so `round` on exact halves is
banker's rounding on rationals of the form t/2).
-/

/-! ## tools.py -/

/-- Python `round(t / 2)` for an integer `t`: exact halves round to the
nearest even integer (banker's rounding). -/
def pyRoundHalf (t : Int) : Int :=
  let f := Int.fdiv t 2
  if Int.emod t 2 = 0 then f
  else if Int.emod f 2 = 0 then f else f + 1

/-- Python slice `s[:k]` with a possibly negative `k`: a negative index counts
from the end, clamped at 0; the result is always an initial segment. -/
def pySliceTo (s : List Char) (k : Int) : List Char :=
  if 0 ≤ k then s.take k.toNat else s.take ((s.length + k).toNat)

/-- Python slice `s[k:]` with a possibly negative `k`. -/
def pySliceFrom (s : List Char) (k : Int) : List Char :=
  if 0 ≤ k then s.drop k.toNat else s.drop ((s.length + k).toNat)

/-- The marker `' . . . '` inserted by `shorten`. -/
def shortenInsertBase : List Char := [' ', '.', ' ', '.', ' ', '.', ' ']

/-- Embeds `insert` in `shorten`: the marker, wrapped in newlines when
`line_break` is set (`insert = '\n'+insert+'\n'`). -/
def shortenInsert (line_break : Bool) : List Char :=
  if line_break then '\n' :: shortenInsertBase ++ ['\n'] else shortenInsertBase

/-- Embeds `tools.shorten(s, max_chars, line_break)`.
Source:
  `l = len(s)`; if `l > max_chars`:
  `left  = s[:round((max_chars-insert_length)/2)]`,
  `right = s[round(l-((max_chars-insert_length)/2)):]`,
  return `left+insert+right`; else return `s`.
With `t = max_chars - insert_length`, `round(l - t/2) = round((2*l - t)/2)`
exactly, since `l` is an integer. -/
def shorten (s : List Char) (max_chars : Int) (line_break : Bool) : List Char :=
  let l : Int := s.length
  if max_chars < l then
    let ins := shortenInsert line_break
    let insert_length : Int := ins.length
    let left := pySliceTo s (pyRoundHalf (max_chars - insert_length))
    let right := pySliceFrom s (pyRoundHalf (2 * l - (max_chars - insert_length)))
    left ++ ins ++ right
  else s

/-- Python `s.split(sep)` for a one-character separator: always returns a
nonempty list; `''.split(sep) = ['']`. -/
def pySplitOn (sep : Char) : List Char → List (List Char)
  | [] => [[]]
  | c :: rest =>
    match pySplitOn sep rest with
    | [] => [[]]
    | cur :: parts => if c = sep then [] :: cur :: parts else (c :: cur) :: parts

/-- Python `line.replace('\n', '')`: removes every occurrence of the
character. -/
def pyReplaceRemove (sep : Char) (l : List Char) : List Char :=
  l.filter (fun c => c != sep)

/-- The `for line in lines` loop of `tools.get_longest_line`: it updates
`longest_line_found`, but the function returns the loop variable `line`
(`none` models the unbound name when the list is empty). -/
def get_longest_line_loop :
    List (List Char) → List Char → Option (List Char) → Option (List Char)
  | [], _, line => line
  | l :: rest, longest_line_found, _ =>
    get_longest_line_loop rest
      (if longest_line_found.length < l.length then l else longest_line_found)
      (some l)

/-- Embeds `tools.get_longest_line(s)`: split on newlines, strip newlines from each
line, loop; the return statement yields the loop variable, i.e. the last
line, not `longest_line_found`. -/
def get_longest_line (s : List Char) : Option (List Char) :=
  let lines := pySplitOn '\n' s
  let lines := lines.map (pyReplaceRemove '\n')
  get_longest_line_loop lines [] none

/-- Reading of the spec text: the last line of `s`, i.e. the final element of
its newline-split line list. -/
def last_line (s : List Char) : List Char :=
  (pySplitOn '\n' s).getLastD []

/-- Reading of the spec text: the longest line of `s` (first one among
ties). -/
def longest_line (s : List Char) : List Char :=
  (pySplitOn '\n' s).foldl
    (fun acc l => if acc.length < l.length then l else acc) []

/-! ## Lemmas about the tools.py embedding -/

lemma pySliceTo_prefix (s : List Char) (k : Int) : pySliceTo s k <+: s := by
  unfold pySliceTo
  split <;> exact List.take_prefix _ _

lemma pySliceFrom_suffix (s : List Char) (k : Int) : pySliceFrom s k <:+ s := by
  unfold pySliceFrom
  split <;> exact List.drop_suffix _ _

lemma pySplitOn_ne_nil (sep : Char) (s : List Char) : pySplitOn sep s ≠ [] := by
  cases s with
  | nil => simp [pySplitOn]
  | cons c rest =>
    cases h : pySplitOn sep rest with
    | nil => simp [pySplitOn, h]
    | cons cur parts =>
      by_cases hc : c = sep <;> simp [pySplitOn, h, hc]

lemma pySplitOn_no_sep (sep : Char) :
    ∀ s : List Char, ∀ l ∈ pySplitOn sep s, sep ∉ l := by
  intro s
  induction s with
  | nil =>
    intro l hl
    simp [pySplitOn] at hl
    subst hl
    simp
  | cons c rest ih =>
    intro l hl
    cases hcase : pySplitOn sep rest with
    | nil => exact absurd hcase (pySplitOn_ne_nil sep rest)
    | cons cur parts =>
      simp only [pySplitOn, hcase] at hl
      by_cases hc : c = sep
      · rw [if_pos hc] at hl
        rcases List.mem_cons.mp hl with h1 | h2
        · subst h1; simp
        · exact ih l (hcase ▸ h2)
      · rw [if_neg hc] at hl
        rcases List.mem_cons.mp hl with h1 | h2
        · subst h1
          intro hmem
          rcases List.mem_cons.mp hmem with h3 | h4
          · exact hc h3.symm
          · exact ih cur (by rw [hcase]; exact List.mem_cons_self _ _) h4
        · exact ih l (by rw [hcase]; exact List.mem_cons_of_mem _ h2)

lemma pyReplaceRemove_noop (sep : Char) (l : List Char) (h : sep ∉ l) :
    pyReplaceRemove sep l = l := by
  unfold pyReplaceRemove
  apply List.filter_eq_self.mpr
  intro a ha
  have hne : a ≠ sep := fun he => h (he ▸ ha)
  simpa [bne_iff_ne] using hne

lemma map_replace_pySplitOn (sep : Char) (s : List Char) :
    (pySplitOn sep s).map (pyReplaceRemove sep) = pySplitOn sep s := by
  have key : ∀ L : List (List Char), (∀ l ∈ L, pyReplaceRemove sep l = l) →
      L.map (pyReplaceRemove sep) = L := by
    intro L
    induction L with
    | nil => intro _; simp
    | cons a t ih =>
      intro h
      simp only [List.map_cons, h a (List.mem_cons_self _ _),
        ih (fun x hx => h x (List.mem_cons_of_mem _ hx))]
  exact key _ (fun l hl => pyReplaceRemove_noop sep l (pySplitOn_no_sep sep s l hl))

lemma get_longest_line_loop_last (lines : List (List Char)) :
    ∀ acc init, get_longest_line_loop lines acc init =
      match lines.getLast? with
      | none => init
      | some l => some l := by
  induction lines with
  | nil => intro acc init; rfl
  | cons l rest ih =>
    intro acc init
    cases rest with
    | nil => simp [get_longest_line_loop]
    | cons m rest2 =>
      rw [get_longest_line_loop, ih, List.getLast?_cons_cons, List.getLast?_cons]

/-! ## Claim theorems: tools.py -/

/-- C1 (code bug evidence): `shorten` violates its budget. On the 12-character
string `'abcdefghijkl'` with `max_chars = 10`, it returns `'ab . . . kl'`,
which has 11 characters — more than the budget, contradicting the claim and
the function's own docstring. -/
theorem shorten_exceeds_budget_on_concrete_input :
    shorten ['a', 'b', 'c', 'd', 'e', 'f', 'g', 'h', 'i', 'j', 'k', 'l'] 10 false
      = ['a', 'b', ' ', '.', ' ', '.', ' ', '.', ' ', 'k', 'l'] ∧
    (shorten ['a', 'b', 'c', 'd', 'e', 'f', 'g', 'h', 'i', 'j', 'k', 'l'] 10 false).length
      = 11 := by
  decide

/-- C2: for a string strictly longer than the budget, `shorten` returns a
prefix of the input, then the fixed marker (`' . . . '`, wrapped in newlines
when `line_break` is set), then a suffix of the input. -/
theorem shorten_prefix_marker_suffix (s : List Char) (mc : Int) (lb : Bool)
    (h : mc < (s.length : Int)) :
    ∃ p q, p <+: s ∧ q <:+ s ∧
      shorten s mc lb =
        p ++ (if lb then ['\n', ' ', '.', ' ', '.', ' ', '.', ' ', '\n']
              else [' ', '.', ' ', '.', ' ', '.', ' ']) ++ q := by
  refine ⟨pySliceTo s (pyRoundHalf (mc - ((shortenInsert lb).length : Int))),
    pySliceFrom s (pyRoundHalf (2 * (s.length : Int) - (mc - ((shortenInsert lb).length : Int)))),
    pySliceTo_prefix _ _, pySliceFrom_suffix _ _, ?_⟩
  have hins : (if lb then ['\n', ' ', '.', ' ', '.', ' ', '.', ' ', '\n']
      else [' ', '.', ' ', '.', ' ', '.', ' ']) = shortenInsert lb := by
    cases lb <;> rfl
  rw [hins]
  simp only [shorten]
  rw [if_pos h]

/-- Witness for C2 at `s = 'abcdefghijkl'`, `max_chars = 3`,
`line_break = false`. -/
theorem shorten_prefix_marker_suffix_witness :
    ∃ p q, p <+: ['a', 'b', 'c', 'd', 'e', 'f', 'g', 'h', 'i', 'j', 'k', 'l'] ∧
      q <:+ ['a', 'b', 'c', 'd', 'e', 'f', 'g', 'h', 'i', 'j', 'k', 'l'] ∧
      shorten ['a', 'b', 'c', 'd', 'e', 'f', 'g', 'h', 'i', 'j', 'k', 'l'] 3 false =
        p ++ (if false then ['\n', ' ', '.', ' ', '.', ' ', '.', ' ', '\n']
              else [' ', '.', ' ', '.', ' ', '.', ' ']) ++ q :=
  shorten_prefix_marker_suffix
    ['a', 'b', 'c', 'd', 'e', 'f', 'g', 'h', 'i', 'j', 'k', 'l'] 3 false (by decide)

/-- C9: a string within the budget is returned unchanged (`else: return s`). -/
theorem shorten_within_budget_id (s : List Char) (mc : Int) (lb : Bool)
    (h : (s.length : Int) ≤ mc) : shorten s mc lb = s := by
  simp only [shorten]
  rw [if_neg (not_lt.mpr h)]

/-- Witness for C9 at `s = 'ab'`, `max_chars = 5`. -/
theorem shorten_within_budget_id_witness :
    (((['a', 'b'] : List Char).length : Int) ≤ 5) ∧
    shorten ['a', 'b'] 5 false = ['a', 'b'] :=
  ⟨by decide, shorten_within_budget_id ['a', 'b'] 5 false (by decide)⟩

/-- C10: `get_longest_line` returns the last line (the final element of the
newline-split list), not the longest one; on `'aaa\nb'` the longest line is
`'aaa'` but the function returns the strictly shorter `'b'`. -/
theorem get_longest_line_returns_last_line :
    (∀ s : List Char, get_longest_line s = some (last_line s)) ∧
    get_longest_line ['a', 'a', 'a', '\n', 'b'] = some ['b'] ∧
    longest_line ['a', 'a', 'a', '\n', 'b'] = ['a', 'a', 'a'] ∧
    (['b'] : List Char).length < (['a', 'a', 'a'] : List Char).length := by
  refine ⟨?_, by decide, by decide, by decide⟩
  intro s
  simp only [get_longest_line, last_line]
  rw [map_replace_pySplitOn]
  cases hsplit : pySplitOn '\n' s with
  | nil => exact absurd hsplit (pySplitOn_ne_nil _ _)
  | cons a t =>
    rw [get_longest_line_loop_last, List.getLastD_eq_getLast?, List.getLast?_cons]
    rfl

/-! ## ryvencore/Base.py: Base.IDCtr -/

/-- The mutable counter state of `Base.IDCtr`. -/
structure IDCtr where
  ctr : Int
deriving DecidableEq

/-- Embeds `IDCtr.count`: increments and returns the new count. -/
def IDCtr.count (st : IDCtr) : IDCtr × Int :=
  ({ st with ctr := st.ctr + 1 }, st.ctr + 1)

/-- Embeds `IDCtr.set_count(cnt)`: raises (`'Decreasing ID counters is illegal'`,
modelled by the `Bool` flag) when `cnt < self.ctr`, leaving the state
untouched; otherwise stores `cnt`. The pair is (exception raised, state after
the call). -/
def IDCtr.set_count (st : IDCtr) (cnt : Int) : Bool × IDCtr :=
  if cnt < st.ctr then (true, st) else (false, { st with ctr := cnt })

/-! ## WRAPPERS.py: emission order of the Qt signal wrappers -/

/-- Core-library methods called by the wrapper layer. -/
inductive CoreMethod where
  | rc_log_write
  | rc_log_clear
  | rc_log_disable
  | rc_log_enable
  | rc_logger_new_log
  | rc_vm_create_new_var
  | rc_vm_delete_variable
  | rc_vm_set_var
  | rc_flow_add_node
  | rc_flow_remove_node
  | rc_flow_add_connection
  | rc_flow_remove_connection
  | rc_dataconn_activate
  | rc_session_rename_script
  | rc_session_delete_script
deriving DecidableEq

/-- Qt signals emitted by the wrapper layer. -/
inductive SignalName where
  | wrote
  | cleared
  | disabled
  | enabled
  | new_log_created
  | new_var_created
  | var_deleted
  | var_val_changed
  | node_added
  | node_removed
  | connection_added
  | connection_removed
  | activated
  | script_renamed
  | script_deleted
deriving DecidableEq

/-- One observable action of a wrapper method body. -/
inductive Event where
  | core_call (m : CoreMethod)
  | emit (sg : SignalName)
deriving DecidableEq

/-- Embeds `Log.write`: `RC_Log.write(self, args); self.wrote.emit(...)`. -/
def Log.write_trace : List Event :=
  [.core_call .rc_log_write, .emit .wrote]

/-- Embeds `Log.clear`: `RC_Log.clear(self); self.cleared.emit()`. -/
def Log.clear_trace : List Event :=
  [.core_call .rc_log_clear, .emit .cleared]

/-- Embeds `Log.disable`: `RC_Log.disable(self); self.disabled.emit()`. -/
def Log.disable_trace : List Event :=
  [.core_call .rc_log_disable, .emit .disabled]

/-- Embeds `Log.enable`: `RC_Log.enable(self); self.enabled.emit()`. -/
def Log.enable_trace : List Event :=
  [.core_call .rc_log_enable, .emit .enabled]

/-- Embeds `Logger.new_log`: call `RC_Logger.new_log`, emit `new_log_created`,
return the log. -/
def Logger.new_log_trace : List Event :=
  [.core_call .rc_logger_new_log, .emit .new_log_created]

/-- Embeds `VarsManager.create_new_var`: call core, emit `new_var_created`. -/
def VarsManager.create_new_var_trace : List Event :=
  [.core_call .rc_vm_create_new_var, .emit .new_var_created]

/-- Embeds `VarsManager.delete_variable`: call core, emit `var_deleted`. -/
def VarsManager.delete_variable_trace : List Event :=
  [.core_call .rc_vm_delete_variable, .emit .var_deleted]

/-- Embeds `VarsManager.set_var`: `b = RC_VarsManager.set_var(...)`; if `b`, emit
`var_val_changed`; return `b`. Parametrized by the boolean the wrapped core
method returns; the result is (returned value, body trace). -/
def VarsManager.set_var (core_result : Bool) : Bool × List Event :=
  (core_result,
    .core_call .rc_vm_set_var ::
      (if core_result then [Event.emit .var_val_changed] else []))

/-- The body trace of `VarsManager.set_var`. -/
def VarsManager.set_var_trace (core_result : Bool) : List Event :=
  (VarsManager.set_var core_result).2

/-- Embeds `Flow.add_node`: call core, emit `node_added`. -/
def Flow.add_node_trace : List Event :=
  [.core_call .rc_flow_add_node, .emit .node_added]

/-- Embeds `Flow.remove_node`: call core, emit `node_removed`. -/
def Flow.remove_node_trace : List Event :=
  [.core_call .rc_flow_remove_node, .emit .node_removed]

/-- Embeds `Flow.add_connection`: call core, emit `connection_added`. -/
def Flow.add_connection_trace : List Event :=
  [.core_call .rc_flow_add_connection, .emit .connection_added]

/-- Embeds `Flow.remove_connection`: call core, emit `connection_removed`. -/
def Flow.remove_connection_trace : List Event :=
  [.core_call .rc_flow_remove_connection, .emit .connection_removed]

/-- Embeds `DataConnection.activate`: the source emits FIRST and calls the wrapped
method afterwards: `self.activated.emit(data); RC_DataConnection.activate(self, data=data)`. -/
def DataConnection.activate_trace : List Event :=
  [.emit .activated, .core_call .rc_dataconn_activate]

/-- Embeds `Session.rename_script`: call core, emit `script_renamed`. -/
def Session.rename_script_trace : List Event :=
  [.core_call .rc_session_rename_script, .emit .script_renamed]

/-- Embeds `Session.delete_script`: call core, emit `script_deleted`. -/
def Session.delete_script_trace : List Event :=
  [.core_call .rc_session_delete_script, .emit .script_deleted]

/-- The wrapper methods enumerated by the claim (both outcomes of the wrapped
`set_var` are listed). -/
def listed_wrapper_traces : List (List Event) :=
  [Log.write_trace, Log.clear_trace, Log.enable_trace, Log.disable_trace,
   Logger.new_log_trace,
   VarsManager.create_new_var_trace, VarsManager.delete_variable_trace,
   VarsManager.set_var_trace true, VarsManager.set_var_trace false,
   Flow.add_node_trace, Flow.remove_node_trace,
   Flow.add_connection_trace, Flow.remove_connection_trace,
   DataConnection.activate_trace,
   Session.rename_script_trace, Session.delete_script_trace]

/-- The claim's list without `DataConnection.activate`. -/
def listed_wrapper_traces_sans_activate : List (List Event) :=
  [Log.write_trace, Log.clear_trace, Log.enable_trace, Log.disable_trace,
   Logger.new_log_trace,
   VarsManager.create_new_var_trace, VarsManager.delete_variable_trace,
   VarsManager.set_var_trace true, VarsManager.set_var_trace false,
   Flow.add_node_trace, Flow.remove_node_trace,
   Flow.add_connection_trace, Flow.remove_connection_trace,
   Session.rename_script_trace, Session.delete_script_trace]

/-- Is the event a call into the wrapped core library? -/
def Event.is_core_call : Event → Bool
  | .core_call _ => true
  | .emit _ => false

/-- Is the event a signal emission? -/
def Event.is_emit : Event → Bool
  | .core_call _ => false
  | .emit _ => true

/-- The trace contains a core call, and it occurs before any emission (true
also when nothing is emitted at all). -/
def core_call_precedes_emits (tr : List Event) : Bool :=
  match tr.findIdx? Event.is_core_call, tr.findIdx? Event.is_emit with
  | some i, some j => decide (i < j)
  | some _, none => true
  | none, _ => false

/-- The trace emits a signal strictly before its first core call. -/
def emit_precedes_core_call (tr : List Event) : Bool :=
  match tr.findIdx? Event.is_emit, tr.findIdx? Event.is_core_call with
  | some i, some j => decide (i < j)
  | _, _ => false

/-! ## Claim theorems: Base.py and WRAPPERS.py -/

/-- C4: `IDCtr.set_count(cnt)` raises exactly when `cnt` is below the current
counter, leaves the counter unchanged in that case, and stores `cnt`
otherwise. -/
theorem idctr_set_count_spec (st : IDCtr) (cnt : Int) :
    ((IDCtr.set_count st cnt).1 = true ↔ cnt < st.ctr) ∧
    (IDCtr.set_count st cnt).2 = (if cnt < st.ctr then st else { ctr := cnt }) := by
  unfold IDCtr.set_count
  by_cases h : cnt < st.ctr
  · simp [h]
  · simp [h]

/-- C3 counterexample: `DataConnection.activate` is in the claim's list of
wrapper methods, yet its body emits the `activated` signal before the wrapped
core call, so the core call does not precede the emission. -/
theorem wrapper_order_counterexample :
    DataConnection.activate_trace ∈ listed_wrapper_traces ∧
    core_call_precedes_emits DataConnection.activate_trace = false := by
  decide

/-- C3 amended: every wrapper method in the claim's list except
`DataConnection.activate` calls the wrapped core method before emitting its
notification signal; `DataConnection.activate` instead emits `activated`
strictly before the wrapped core call. -/
theorem wrapper_order_amended :
    listed_wrapper_traces_sans_activate.all core_call_precedes_emits = true ∧
    emit_precedes_core_call DataConnection.activate_trace = true := by
  decide

/-- C7: `VarsManager.set_var` returns exactly the boolean returned by the
wrapped core `set_var`, and its body emits `var_val_changed` if and only if
that boolean is true. -/
theorem vars_manager_set_var_spec :
    ∀ core_result : Bool,
      (VarsManager.set_var core_result).1 = core_result ∧
      (Event.emit SignalName.var_val_changed ∈ (VarsManager.set_var core_result).2
        ↔ core_result = true) := by
  decide

/-! ## Session.py: class registry setup in Session.__init__ -/

/-- The string keys of the `CLASSES` registry touched by `Session.__init__`
(`'node base'`, `'data conn'`, `'logs manager'`, `'vars manager'`, `'flow'`,
`'exec conn'`, `'data conn item'`, `'exec conn item'`). -/
inductive RegistryKey where
  | node_base
  | data_conn
  | logs_manager
  | vars_manager
  | flow
  | exec_conn
  | data_conn_item
  | exec_conn_item
deriving DecidableEq

/-- The classes this layer can store in the registry: the ryvencore-qt
defaults, or a caller-provided custom class. -/
inductive GuiClass where
  | qt_node
  | qt_data_connection
  | qt_logs_manager
  | qt_vars_manager
  | qt_flow
  | qt_data_conn_item
  | qt_exec_conn_item
  | custom (n : Nat)
deriving DecidableEq

/-- The `CLASSES` dict, restricted to the keys this layer touches. -/
def Registry := RegistryKey → Option GuiClass

/-- Python `CLASSES[k] = c`. -/
def registry_set (reg : Registry) (k : RegistryKey) (c : GuiClass) : Registry :=
  fun k2 => if k2 = k then some c else reg k2

/-- One statement of the `Session.__init__` prefix. -/
inductive InitStep where
  | set_class (k : RegistryKey) (c : GuiClass)
  | core_session_init
deriving DecidableEq

/-- The statements of `Session.__init__` up to and including
`RC_Session.__init__(self, gui=True)`, in source order. A `None` argument
(Python falsy) selects the ryvencore-qt default; `CLASSES['exec conn']` is
assigned only under `if exec_conn_class:`. -/
def session_init_steps (node_class data_conn_class exec_conn_class
    data_conn_item_class exec_conn_item_class : Option GuiClass) : List InitStep :=
  [InitStep.set_class .node_base
      (match node_class with | none => .qt_node | some c => c),
   InitStep.set_class .data_conn
      (match data_conn_class with | none => .qt_data_connection | some c => c),
   InitStep.set_class .logs_manager .qt_logs_manager,
   InitStep.set_class .vars_manager .qt_vars_manager,
   InitStep.set_class .flow .qt_flow]
  ++ (match exec_conn_class with
      | none => []
      | some c => [InitStep.set_class .exec_conn c])
  ++ [InitStep.set_class .data_conn_item
        (match data_conn_item_class with | none => .qt_data_conn_item | some c => c),
      InitStep.set_class .exec_conn_item
        (match exec_conn_item_class with | none => .qt_exec_conn_item | some c => c),
      InitStep.core_session_init]

/-- Run the registry assignments of an init-step list over a starting
registry state. -/
def run_init_steps (reg : Registry) : List InitStep → Registry
  | [] => reg
  | InitStep.set_class k c :: rest => run_init_steps (registry_set reg k c) rest
  | InitStep.core_session_init :: rest => run_init_steps reg rest

/-- The registry state produced by the `Session.__init__` prefix. -/
def session_init_registry (reg0 : Registry)
    (node_class data_conn_class exec_conn_class
     data_conn_item_class exec_conn_item_class : Option GuiClass) : Registry :=
  run_init_steps reg0
    (session_init_steps node_class data_conn_class exec_conn_class
      data_conn_item_class exec_conn_item_class)

/-- Is the step a registry assignment? -/
def InitStep.is_set_class : InitStep → Bool
  | .set_class _ _ => true
  | .core_session_init => false

/-- C6: after the `Session.__init__` prefix, `'node base'` holds the provided
`node_class` or the default `Node`, `'data conn'` the provided class or the
default `DataConnection`, `'exec conn'` is overwritten exactly when
`exec_conn_class` is provided and otherwise keeps its prior value, and the
core session init is the last step, after every registry assignment. -/
theorem session_init_registry_spec (reg0 : Registry)
    (nc dc ec dci eci : Option GuiClass) :
    session_init_registry reg0 nc dc ec dci eci RegistryKey.node_base
        = some (nc.getD GuiClass.qt_node) ∧
    session_init_registry reg0 nc dc ec dci eci RegistryKey.data_conn
        = some (dc.getD GuiClass.qt_data_connection) ∧
    session_init_registry reg0 nc dc ec dci eci RegistryKey.exec_conn
        = (match ec with
           | none => reg0 RegistryKey.exec_conn
           | some c => some c) ∧
    (session_init_steps nc dc ec dci eci).getLast?
        = some InitStep.core_session_init ∧
    ((session_init_steps nc dc ec dci eci).dropLast).all InitStep.is_set_class
        = true := by
  cases ec with
  | none =>
    cases nc <;> cases dc <;>
      simp [session_init_registry, session_init_steps, run_init_steps,
        registry_set, InitStep.is_set_class]
  | some c =>
    cases nc <;> cases dc <;>
      simp [session_init_registry, session_init_steps, run_init_steps,
        registry_set, InitStep.is_set_class]

/-! ## Session.py: _build_flow_view busy-wait -/

/-- Observable actions of `Session._build_flow_view`. -/
inductive FVEvent where
  | set_tmp_data_none
  | emit_build_flow_view_request
  | sleep_1ms
  | record_flow_view
  | emit_script_flow_view_created
deriving DecidableEq

/-- The `while self.tmp_data is None: time.sleep(0.001)` loop. `reads i` is
the value of the shared field `tmp_data` observed at the i-th check, written
concurrently by the GUI thread; each failed check is followed by a fixed
1 ms sleep. The loop has no timeout, so termination is modelled by fuel:
`none` means the loop is still spinning after `fuel` checks. -/
def poll_tmp_data (V : Type) (reads : Nat → Option V) (i : Nat) :
    Nat → Option (List FVEvent × V)
  | 0 => none
  | fuel + 1 =>
    match reads i with
    | some v => some ([], v)
    | none =>
      match poll_tmp_data V reads (i + 1) fuel with
      | none => none
      | some (es, v) => some (FVEvent.sleep_1ms :: es, v)

/-- Embeds `Session._build_flow_view` after the request parameters are assembled:
`self.tmp_data = None`; `self.build_flow_view_request.emit(...)`; busy-wait on
`tmp_data`; `self.flow_views[script] = flow_view`;
`self.script_flow_view_created.emit(script, flow_view)`. Returns the event
trace and the view read from the shared field. -/
def build_flow_view (V : Type) (reads : Nat → Option V) (fuel : Nat) :
    Option (List FVEvent × V) :=
  match poll_tmp_data V reads 0 fuel with
  | none => none
  | some (es, v) =>
    some (([FVEvent.set_tmp_data_none, FVEvent.emit_build_flow_view_request]
            ++ es)
          ++ [FVEvent.record_flow_view, FVEvent.emit_script_flow_view_created],
          v)

lemma poll_tmp_data_spec (V : Type) (reads : Nat → Option V) :
    ∀ (n i fuel : Nat) (v : V), n < fuel → reads (i + n) = some v →
      (∀ k, k < n → reads (i + k) = none) →
      poll_tmp_data V reads i fuel = some (List.replicate n FVEvent.sleep_1ms, v) := by
  intro n
  induction n with
  | zero =>
    intro i fuel v hf hv _
    cases fuel with
    | zero => exact absurd hf (by omega)
    | succ f =>
      simp only [poll_tmp_data]
      rw [show i + 0 = i from rfl] at hv
      rw [hv]
      rfl
  | succ m ih =>
    intro i fuel v hf hv hnone
    cases fuel with
    | zero => exact absurd hf (by omega)
    | succ f =>
      have h0 : reads i = none := by
        have := hnone 0 (by omega)
        simpa using this
      simp only [poll_tmp_data, h0]
      have hv2 : reads (i + 1 + m) = some v := by
        have : i + 1 + m = i + (m + 1) := by omega
        rw [this]; exact hv
      have hnone2 : ∀ k, k < m → reads (i + 1 + k) = none := by
        intro k hk
        have : i + 1 + k = i + (k + 1) := by omega
        rw [this]; exact hnone (k + 1) (by omega)
      rw [ih (i + 1) f v (by omega) hv2 hnone2]
      rfl

lemma poll_tmp_data_none (V : Type) (reads : Nat → Option V)
    (hall : ∀ j, reads j = none) :
    ∀ fuel i, poll_tmp_data V reads i fuel = none := by
  intro fuel
  induction fuel with
  | zero => intro i; rfl
  | succ f ih =>
    intro i
    simp only [poll_tmp_data, hall i, ih (i + 1)]

/-- C8: `_build_flow_view` first clears the shared field, then emits the
construction request, then busy-waits — one fixed 1 ms sleep per failed check
of the shared field — until the owning thread has written a view, and finally
records the view and emits `script_flow_view_created`; when the shared field
is never written the wait never ends (no timeout, no cancellation). -/
theorem build_flow_view_busy_wait :
    (∀ (V : Type) (reads : Nat → Option V) (n : Nat) (v : V),
        reads n = some v → (∀ i, i < n → reads i = none) →
        ∀ fuel, n < fuel →
          build_flow_view V reads fuel =
            some ([FVEvent.set_tmp_data_none, FVEvent.emit_build_flow_view_request]
                  ++ List.replicate n FVEvent.sleep_1ms
                  ++ [FVEvent.record_flow_view, FVEvent.emit_script_flow_view_created],
                  v)) ∧
    (∀ (V : Type) (reads : Nat → Option V), (∀ j, reads j = none) →
        ∀ fuel, build_flow_view V reads fuel = none) := by
  constructor
  · intro V reads n v hv hnone fuel hf
    unfold build_flow_view
    rw [poll_tmp_data_spec V reads n 0 fuel v hf (by simpa using hv)
      (by intro k hk; simpa using hnone k hk)]
  · intro V reads hall fuel
    unfold build_flow_view
    rw [poll_tmp_data_none V reads hall fuel 0]

/-- Witness for C8: with the shared field first written at the second check
the trace holds exactly one sleep, and with the field never written the
busy-wait is still spinning after 5 checks. -/
theorem build_flow_view_busy_wait_witness :
    build_flow_view Nat (fun i => if i = 1 then some 7 else none) 3 =
      some ([FVEvent.set_tmp_data_none, FVEvent.emit_build_flow_view_request]
            ++ List.replicate 1 FVEvent.sleep_1ms
            ++ [FVEvent.record_flow_view, FVEvent.emit_script_flow_view_created],
            7) ∧
    build_flow_view Nat (fun _ => none) 5 = none :=
  ⟨build_flow_view_busy_wait.1 Nat (fun i => if i = 1 then some 7 else none) 1 7
      (by decide)
      (by
        intro i hi
        match i, hi with
        | 0, _ => rfl)
      3 (by decide),
   build_flow_view_busy_wait.2 Nat (fun _ => none) (fun _ => rfl) 5⟩

/-! ## Session.py: serialize -/

/-- The collaborators `Session.serialize` depends on: the scripts and their
titles, the per-script flow views (`self.flow_views`, a partial map — a
missing key is a `KeyError`), the two config lists produced by the core
`RC_Session.serialize` (`data['function scripts']` and `data['scripts']`),
the `'name'` field of a config, and the view-side completion
`FlowView.generate_config_data` performed on the owning thread. -/
structure SerializeEnv (Script View Cfg : Type) where
  all_scripts : List Script
  title : Script → String
  flow_views : Script → Option View
  core_fs_cfgs : List Cfg
  core_s_cfgs : List Cfg
  cfg_name : Cfg → String
  generate_config_data : View → Cfg → Cfg

/-- Embeds `Session._get_script_from_title`: linear scan over `self.all_scripts()`,
returning the first script whose title matches, else `None`. -/
def get_script_from_title {Script View Cfg : Type}
    (e : SerializeEnv Script View Cfg) (t : String) : Option Script :=
  e.all_scripts.find? (fun s => e.title s == t)

/-- One iteration of the serialize loops: look the script up by
`cfg['name']`, take its flow view (`self.flow_views[script]`), and have the
view complete the config on the owning thread. `none` models the propagated
exception when the title resolves to no script or the script has no view. -/
def complete_script_cfg {Script View Cfg : Type}
    (e : SerializeEnv Script View Cfg) (cfg : Cfg) : Option Cfg :=
  match get_script_from_title e (e.cfg_name cfg) with
  | none => none
  | some script =>
    match e.flow_views script with
    | none => none
    | some view => some (e.generate_config_data view cfg)

/-- The `for ... in data[...]` accumulation loop of `Session.serialize`. -/
def complete_cfg_list {Script View Cfg : Type}
    (e : SerializeEnv Script View Cfg) : List Cfg → Option (List Cfg)
  | [] => some []
  | cfg :: rest =>
    match complete_script_cfg e cfg with
    | none => none
    | some c2 =>
      match complete_cfg_list e rest with
      | none => none
      | some cs => some (c2 :: cs)

/-- Embeds `Session.serialize`: run the core serialization, complete each function
script config and each script config through its flow view, and return
`{'function scripts': ..., 'scripts': ...}` (modelled as a two-entry
association list to record the exact keys). -/
def Session.serialize {Script View Cfg : Type}
    (e : SerializeEnv Script View Cfg) : Option (List (String × List Cfg)) :=
  match complete_cfg_list e e.core_fs_cfgs with
  | none => none
  | some fs =>
    match complete_cfg_list e e.core_s_cfgs with
    | none => none
    | some ss => some [("function scripts", fs), ("scripts", ss)]

lemma complete_cfg_list_forall2 {Script View Cfg : Type}
    (e : SerializeEnv Script View Cfg) :
    ∀ l l2 : List Cfg, complete_cfg_list e l = some l2 →
      List.Forall₂ (fun c c2 => ∃ s v,
        get_script_from_title e (e.cfg_name c) = some s ∧
        e.flow_views s = some v ∧
        c2 = e.generate_config_data v c) l l2 := by
  intro l
  induction l with
  | nil =>
    intro l2 h
    cases h
    exact List.Forall₂.nil
  | cons c rest ih =>
    intro l2 h
    simp only [complete_cfg_list] at h
    cases hc : complete_script_cfg e c with
    | none => rw [hc] at h; simp at h
    | some c2 =>
      rw [hc] at h
      cases hrest : complete_cfg_list e rest with
      | none => rw [hrest] at h; simp at h
      | some cs =>
        rw [hrest] at h
        obtain rfl := Option.some.inj h
        refine List.Forall₂.cons ?_ (ih cs hrest)
        simp only [complete_script_cfg] at hc
        split at hc
        · simp at hc
        · rename_i s hs
          split at hc
          · simp at hc
          · rename_i v hv
            exact ⟨s, v, hs, hv, (Option.some.inj hc).symm⟩

/-- C5: whenever `Session.serialize` returns, the result has exactly the two
keys `'function scripts'` and `'scripts'`, and each entry list corresponds —
pointwise and in the core serialization's order — to the core config
completed by the flow view of the script found by its unique title. -/
theorem session_serialize_shape {Script View Cfg : Type}
    (e : SerializeEnv Script View Cfg) (out : List (String × List Cfg))
    (h : Session.serialize e = some out) :
    ∃ fs ss,
      out = [("function scripts", fs), ("scripts", ss)] ∧
      List.Forall₂ (fun c c2 => ∃ s v,
        get_script_from_title e (e.cfg_name c) = some s ∧
        e.flow_views s = some v ∧
        c2 = e.generate_config_data v c) e.core_fs_cfgs fs ∧
      List.Forall₂ (fun c c2 => ∃ s v,
        get_script_from_title e (e.cfg_name c) = some s ∧
        e.flow_views s = some v ∧
        c2 = e.generate_config_data v c) e.core_s_cfgs ss := by
  simp only [Session.serialize] at h
  cases hfs : complete_cfg_list e e.core_fs_cfgs with
  | none => rw [hfs] at h; simp at h
  | some fs =>
    rw [hfs] at h
    cases hss : complete_cfg_list e e.core_s_cfgs with
    | none => rw [hss] at h; simp at h
    | some ss =>
      rw [hss] at h
      obtain rfl := (Option.some.inj h).symm
      exact ⟨fs, ss, rfl,
        complete_cfg_list_forall2 e _ fs hfs,
        complete_cfg_list_forall2 e _ ss hss⟩

/-- A one-script environment used to exercise `Session.serialize`. -/
def serializeWitnessEnv : SerializeEnv Unit Nat String where
  all_scripts := [()]
  title := fun _ => "s1"
  flow_views := fun _ => some 0
  core_fs_cfgs := ["s1"]
  core_s_cfgs := []
  cfg_name := fun c => c
  generate_config_data := fun _ c => c

/-- Witness for C5 on `serializeWitnessEnv`, where the serialization
succeeds. -/
theorem session_serialize_shape_witness :
    ∃ fs ss,
      [("function scripts", ["s1"]), ("scripts", ([] : List String))]
        = [("function scripts", fs), ("scripts", ss)] ∧
      List.Forall₂ (fun c c2 => ∃ s v,
        get_script_from_title serializeWitnessEnv
          (serializeWitnessEnv.cfg_name c) = some s ∧
        serializeWitnessEnv.flow_views s = some v ∧
        c2 = serializeWitnessEnv.generate_config_data v c)
        serializeWitnessEnv.core_fs_cfgs fs ∧
      List.Forall₂ (fun c c2 => ∃ s v,
        get_script_from_title serializeWitnessEnv
          (serializeWitnessEnv.cfg_name c) = some s ∧
        serializeWitnessEnv.flow_views s = some v ∧
        c2 = serializeWitnessEnv.generate_config_data v c)
        serializeWitnessEnv.core_s_cfgs ss :=
  session_serialize_shape serializeWitnessEnv
    [("function scripts", ["s1"]), ("scripts", [])] (by decide)
